import Mathlib

/-!
# Verification of the solvook-slack-bot handler logic

A shallow embedding of the repository's handler functions
(`src/listeners/events/message.ts`, `src/listeners/events/app-mention.ts`,
`src/listeners/commands/hello.ts`, `src/listeners/commands/ping.ts`,
`src/listeners/commands/help.ts`, `src/listeners/shortcuts/create-task.ts`,
the `view-help` and `channel-info` block actions and the
`member-joined` event handler).

Modelling conventions:
* Each handler is a pure function from the inbound event (plus the values the
  external platform would return for lookup calls such as `users.info` /
  `conversations.info`) to the ordered list of API calls the handler performs.
* Optional string fields of a JavaScript event object are `Option String`;
  JavaScript truthiness of such a field is `strTruthy` (absent or `""` is falsy).
* A Block Kit message's content is modelled as the concatenation of the text
  of its blocks, in order.
* The try/catch structure of each handler is modelled by `runHandler`, which
  takes the calls performed before the `try` block, the calls inside it, the
  handler's catch behaviour, and the index of the first failing call (if any).
-/

namespace SolvookBot

/-- JavaScript truthiness of an optional string field: `undefined` and `""`
are falsy, every other string is truthy. -/
def strTruthy : Option String → Bool
  | none => false
  | some s => !(s == "")

/-- Decide whether `pat` occurs at the start of `l` (as a list of characters). -/
def listStartTest : List Char → List Char → Bool
  | [], _ => true
  | _ :: _, [] => false
  | a :: as, b :: bs => a == b && listStartTest as bs

/-- Decide whether `pat` occurs contiguously inside `l`. -/
def listSubTest (pat : List Char) : List Char → Bool
  | [] => listStartTest pat []
  | l@(_ :: rest) => listStartTest pat l || listSubTest pat rest

/-- JavaScript `s.includes(pat)`: substring containment test. -/
def containsSub (s pat : String) : Bool :=
  listSubTest pat.data s.data

/-- Lower-casing of one character, as `String.prototype.toLowerCase` acts on
the ASCII range (the only characters the handlers' keyword predicates can
distinguish, since every keyword is lower-case ASCII). -/
def charToLower (c : Char) : Char :=
  if c.toNat ≥ 65 && c.toNat ≤ 90 then Char.ofNat (c.toNat + 32) else c

/-- JavaScript `s.toLowerCase()` on the ASCII range. -/
def strToLower (s : String) : String :=
  ⟨s.data.map charToLower⟩

/-- JavaScript `a || b` on an optional string with a string default:
returns the string if it is present and non-empty, otherwise the default. -/
def orTruthy (o : Option String) (d : String) : String :=
  match o with
  | some s => if s == "" then d else s
  | none => d

/-- One side-effecting or lookup call against the external platform API. -/
inductive ApiCall where
  | ack
  | conversationsInfo (channel : String)
  | conversationsMembers (channel : String)
  | usersInfo (user : String)
  | postMessage (channel : String) (text : String) (thread : Option String)
  | postEphemeral (channel : String) (user : String) (text : String)
  | addReaction (channel : String) (name : String) (timestamp : String)
  | viewsOpen (trigger : String) (callbackId : Option String)
  deriving DecidableEq, Repr

/-- Calls that are outbound actions in the spec's sense (they publish something
to the platform), as opposed to lookups (`conversations.info`, `users.info`,
`conversations.members`) and the framework acknowledgment. -/
def isOutbound : ApiCall → Bool
  | .postMessage _ _ _ => true
  | .postEphemeral _ _ _ => true
  | .addReaction _ _ _ => true
  | .viewsOpen _ _ => true
  | _ => false

/-- Calls that post a message (a "reply"). -/
def isPost : ApiCall → Bool
  | .postMessage _ _ _ => true
  | _ => false

/-- Calls that add a reaction. -/
def isReaction : ApiCall → Bool
  | .addReaction _ _ _ => true
  | _ => false

/-- Calls that open a modal. -/
def isModalOpen : ApiCall → Bool
  | .viewsOpen _ _ => true
  | _ => false

/-! ## `src/listeners/events/message.ts` -/

/-- The fields of a Slack `message` event used by `messageEvent`. Optional
fields model the dynamic `'field' in event` / truthiness checks of the source. -/
structure MessageEvent where
  text : Option String
  subtype : Option String
  bot_id : Option String
  channel : String
  user : String
  ts : String
  deriving DecidableEq, Repr

def dmHelloText (u : String) : String :=
  "Hello <@" ++ u ++ ">! 👋 How can I assist you today?"

def dmHelpText : String :=
  "I can help you with various tasks! Try these commands:\n" ++
  "• `/hello` - Get a greeting\n" ++
  "• `/ping` - Check bot status\n" ++
  "• `/help` - See all commands\n\n" ++
  "You can also just chat with me here in DM!"

def dmHowAreYouText : String :=
  "I'm doing great! Thanks for asking. How can I help you today? 🤖"

def urgentKeywords : List String := ["urgent", "emergency", "important", "asap"]

/-- `messageEvent` from `src/listeners/events/message.ts`: the ordered list of
API calls the handler performs on the success path. `isIm` is the truthiness of
`channelInfo.channel?.is_im` returned by the `conversations.info` lookup. -/
def messageEvent (e : MessageEvent) (isIm : Bool) : List ApiCall :=
  if !strTruthy e.text then []
  else if strTruthy e.subtype then []
  else if strTruthy e.bot_id then []
  else
    let text := e.text.getD ""
    ApiCall.conversationsInfo e.channel ::
    (if isIm then
      let lowerText := strToLower text
      if containsSub lowerText "hello" || containsSub lowerText "hi" then
        [ApiCall.postMessage e.channel (dmHelloText e.user) (some e.ts)]
      else if containsSub lowerText "help" then
        [ApiCall.postMessage e.channel dmHelpText (some e.ts)]
      else if containsSub lowerText "how are you" then
        [ApiCall.postMessage e.channel dmHowAreYouText (some e.ts)]
      else []
    else
      if urgentKeywords.any (fun k => containsSub (strToLower text) k) then
        [ApiCall.addReaction e.channel "eyes" e.ts,
         ApiCall.addReaction e.channel "warning" e.ts]
      else [])

/-! ## `src/listeners/events/app-mention.ts` -/

/-- The fields of a Slack `app_mention` event used by `appMentionEvent`. -/
structure AppMentionEvent where
  text : String
  user : String
  channel : String
  ts : String
  deriving DecidableEq, Repr

def mentionHelpResponse (u : String) : String :=
  "Hi <@" ++ u ++ ">! I can help you with:\n" ++
  "• `/hello` - Get a greeting\n" ++
  "• `/ping` - Check my response time\n" ++
  "• `/help` - Show all available commands"

def mentionStatusResponse (u : String) : String :=
  "I'm online and ready to help, <@" ++ u ++ ">! 🟢"

def mentionThankResponse (u : String) : String :=
  "You're welcome, <@" ++ u ++ ">! Happy to help! 😊"

def mentionDefaultResponse (u : String) : String :=
  "Hi <@" ++ u ++ ">! You mentioned me. How can I help you today?\n" ++
  "_Try asking for \"help\" or \"status\"_"

/-- The reply text selected by the if/else chain of `appMentionEvent`. -/
def mentionResponse (e : AppMentionEvent) : String :=
  let messageText := strToLower e.text
  if containsSub messageText "help" then mentionHelpResponse e.user
  else if containsSub messageText "status" then mentionStatusResponse e.user
  else if containsSub messageText "thank" then mentionThankResponse e.user
  else mentionDefaultResponse e.user

/-- `appMentionEvent` from `src/listeners/events/app-mention.ts`: always one
`say` call, threaded to the triggering event. -/
def appMentionEvent (e : AppMentionEvent) : List ApiCall :=
  [ApiCall.postMessage e.channel (mentionResponse e) (some e.ts)]

/-! ## `src/listeners/commands/hello.ts`, `ping.ts`, `help.ts` -/

/-- The fields of a slash-command payload used by the command handlers. -/
structure SlashCommand where
  user_id : String
  channel_id : String
  text : String
  deriving DecidableEq, Repr

/-- The `user` record of a `users.info` response; `none` fields model an
absent `user` object or absent properties. -/
structure UserInfoResult where
  real_name : Option String
  name : Option String
  deriving DecidableEq, Repr

/-- `userInfo.user?.real_name || userInfo.user?.name || 'there'`. -/
def resolvedUserName (u : UserInfoResult) : String :=
  orTruthy u.real_name (orTruthy u.name "there")

/-- The concatenated block texts of the `/hello` reply. -/
def helloBlocksText (userName : String) (cmd : SlashCommand) : String :=
  "Hello *" ++ userName ++ "*! 👋" ++
  "You called the `/hello` command from <#" ++ cmd.channel_id ++ ">" ++
  "_Command text: \"" ++ (if cmd.text == "" then "none" else cmd.text) ++ "\"_"

/-- The fallback message sent from the catch block of `helloCommand`. -/
def helloErrorText : String :=
  "Sorry, something went wrong with the hello command."

/-- `helloCommand` from `src/listeners/commands/hello.ts`, success path:
ack, a `users.info` lookup, then one `say` into the command's channel. -/
def helloCommand (cmd : SlashCommand) (uinfo : UserInfoResult) : List ApiCall :=
  [ApiCall.ack,
   ApiCall.usersInfo cmd.user_id,
   ApiCall.postMessage cmd.channel_id (helloBlocksText (resolvedUserName uinfo) cmd) none]

/-- The concatenated block texts of the `/ping` reply; `ackTime` is the
measured acknowledgment latency in milliseconds. -/
def pingBlocksText (ackTime : Nat) (userId : String) : String :=
  "🏓 *Pong!*" ++
  "Response time: " ++ toString ackTime ++ "ms | User: <@" ++ userId ++ ">"

/-- `pingCommand` from `src/listeners/commands/ping.ts`: ack then one `say`.
There is no try/catch in this handler. -/
def pingCommand (cmd : SlashCommand) (ackTime : Nat) : List ApiCall :=
  [ApiCall.ack,
   ApiCall.postMessage cmd.channel_id (pingBlocksText ackTime cmd.user_id) none]

/-- The concatenated block texts of the `/help` reply. -/
def helpBlocksText : String :=
  "Solvook Bot Help 📚" ++
  "Here are the available commands:" ++
  "*Slash Commands:*\n" ++
  "• `/hello` - Get a personalized greeting\n" ++
  "• `/ping` - Check if the bot is responsive\n" ++
  "• `/help` - Show this help message" ++
  "*Message Events:*\n" ++
  "• Mention the bot to get a response\n" ++
  "• Direct message the bot for assistance" ++
  "*Interactive Features:*\n" ++
  "• Click buttons in bot messages\n" ++
  "• Use shortcuts from the shortcuts menu" ++
  "_Need more help? Contact your Slack admin._"

/-- `helpCommand` from `src/listeners/commands/help.ts`: ack then one `say`.
There is no try/catch in this handler. -/
def helpCommand (cmd : SlashCommand) : List ApiCall :=
  [ApiCall.ack,
   ApiCall.postMessage cmd.channel_id helpBlocksText none]

/-! ## `src/listeners/shortcuts/create-task.ts` and the block actions -/

/-- The fields of a shortcut / block-action payload used by the handlers:
the interaction token (`trigger_id`) and the clicking user. -/
structure InteractionBody where
  trigger_id : String
  user_id : String
  deriving DecidableEq, Repr

/-- The `views.open` call inside the try block of `createTaskShortcut`:
it opens the modal with callback id `task_modal` using `body.trigger_id`. -/
def createTaskTry (b : InteractionBody) : List ApiCall :=
  [ApiCall.viewsOpen b.trigger_id (some "task_modal")]

/-- `createTaskShortcut` from `src/listeners/shortcuts/create-task.ts`:
ack, then open the task modal. -/
def createTaskShortcut (b : InteractionBody) : List ApiCall :=
  ApiCall.ack :: createTaskTry b

/-- The `views.open` call inside the try block of `viewHelpAction`:
the help modal has no `callback_id`. -/
def viewHelpTry (b : InteractionBody) : List ApiCall :=
  [ApiCall.viewsOpen b.trigger_id none]

/-- `viewHelpAction` (the `view_help` block action): ack, then open the
help modal. -/
def viewHelpAction (b : InteractionBody) : List ApiCall :=
  ApiCall.ack :: viewHelpTry b

/-- Environment values the `channel_info` action handler reads from the
platform: the resolved channel id (`action.value || body.channel?.id`), the
`conversations.info` record and the member list length. -/
structure ChannelInfoEnv where
  channelId : String
  channelName : Option String
  memberCount : Nat
  created : Option Nat
  localeDate : String
  purpose : Option String
  topic : Option String
  deriving DecidableEq, Repr

/-- JavaScript template interpolation of a possibly-undefined string. -/
def interpOpt (o : Option String) : String :=
  match o with
  | some s => s
  | none => "undefined"

/-- JavaScript template interpolation of a possibly-undefined number. -/
def interpOptNat (o : Option Nat) : String :=
  match o with
  | some n => toString n
  | none => "undefined"

/-- The concatenated block texts of the ephemeral channel-information reply. -/
def channelInfoBlocksText (env : ChannelInfoEnv) : String :=
  "Channel Information 📊" ++
  "*Channel Name:*\n#" ++ interpOpt env.channelName ++
  "*Members:*\n" ++ toString env.memberCount ++ " members" ++
  "*Created:*\n<!date^" ++ interpOptNat env.created ++ "^\x7bdate_long\x7d|" ++
  env.localeDate ++ ">" ++
  "*Purpose:*\n" ++ orTruthy env.purpose "No purpose set" ++
  "*Topic:*\n" ++ orTruthy env.topic "No topic set"

/-- The calls inside the try block of `channelInfoAction`: two lookups, then
one ephemeral post to the clicking user. -/
def channelInfoTry (b : InteractionBody) (env : ChannelInfoEnv) : List ApiCall :=
  [ApiCall.conversationsInfo env.channelId,
   ApiCall.conversationsMembers env.channelId,
   ApiCall.postEphemeral env.channelId b.user_id (channelInfoBlocksText env)]

/-- `channelInfoAction` (the `channel_info` block action): ack, then the
lookups and the ephemeral reply. -/
def channelInfoAction (b : InteractionBody) (env : ChannelInfoEnv) : List ApiCall :=
  ApiCall.ack :: channelInfoTry b env

/-! ## `src/listeners/events/member-joined.ts` -/

/-- The fields of a `member_joined_channel` event used by the handler. -/
structure MemberJoinedEvent where
  user : String
  channel : String
  deriving DecidableEq, Repr

/-- Environment values the member-joined handler reads from the platform. -/
structure MemberJoinedEnv where
  userInfo : UserInfoResult
  channelName : Option String
  deriving DecidableEq, Repr

/-- The concatenated section texts of the welcome message (the action block's
buttons carry no text payload of their own beyond their labels). -/
def memberJoinedBlocksText (userName channelName : String) : String :=
  "Welcome to #" ++ channelName ++ ", *" ++ userName ++ "*! 🎉" ++
  "We're glad to have you here. Feel free to introduce yourself and let us " ++
  "know if you need any help getting started!"

/-- The calls inside the try block of `memberJoinedChannelEvent`. -/
def memberJoinedTry (e : MemberJoinedEvent) (env : MemberJoinedEnv) : List ApiCall :=
  [ApiCall.usersInfo e.user,
   ApiCall.conversationsInfo e.channel,
   ApiCall.postMessage e.channel
     (memberJoinedBlocksText
       (orTruthy env.userInfo.real_name (orTruthy env.userInfo.name "New member"))
       (orTruthy env.channelName "the channel"))
     none]

/-- `memberJoinedChannelEvent` from `src/listeners/events/member-joined.ts`. -/
def memberJoinedChannelEvent (e : MemberJoinedEvent) (env : MemberJoinedEnv) : List ApiCall :=
  memberJoinedTry e env

/-! ## Error-path model: the try/catch structure of each handler -/

/-- What a handler's catch block does when a call inside its try block fails. -/
inductive CatchBehavior where
  /-- the handler has no try/catch: the failure escapes the handler -/
  | uncaught
  /-- `console.error` only: the failure is logged and swallowed -/
  | logOnly
  /-- `console.error` plus one best-effort user-facing error notice -/
  | logAndNotify (notice : ApiCall)
  deriving DecidableEq, Repr

/-- The observable outcome of one handler invocation under a possible failure:
the calls attempted (including the failing one and any catch-block call), how
many `console.error` logs were emitted, how many user-facing error notices
were attempted, and whether an exception escaped the handler. -/
structure HandlerRun where
  attempted : List ApiCall
  logged : Nat
  notices : Nat
  thrown : Bool
  deriving DecidableEq, Repr

/-- Run a handler whose body is `preTry ++ tryBody` where only `tryBody` is
wrapped in the try/catch described by `pol`. `failAt` is the index (into the
whole body) of the first call that fails, if any; a failure before the try
block always escapes the handler. -/
def runHandler (preTry tryBody : List ApiCall) (pol : CatchBehavior) :
    Option Nat → HandlerRun
  | none => ⟨preTry ++ tryBody, 0, 0, false⟩
  | some i =>
    if i < preTry.length then
      ⟨preTry.take (i + 1), 0, 0, true⟩
    else if i < preTry.length + tryBody.length then
      match pol with
      | .uncaught => ⟨(preTry ++ tryBody).take (i + 1), 0, 0, true⟩
      | .logOnly => ⟨(preTry ++ tryBody).take (i + 1), 1, 0, false⟩
      | .logAndNotify n => ⟨(preTry ++ tryBody).take (i + 1) ++ [n], 1, 1, false⟩
    else ⟨preTry ++ tryBody, 0, 0, false⟩

/-- `helloCommand` run under failure: `ack` is before the try block; the
catch logs and sends one fallback `say`. -/
def helloRun (cmd : SlashCommand) (uinfo : UserInfoResult)
    (failAt : Option Nat) : HandlerRun :=
  runHandler [ApiCall.ack]
    [ApiCall.usersInfo cmd.user_id,
     ApiCall.postMessage cmd.channel_id
       (helloBlocksText (resolvedUserName uinfo) cmd) none]
    (.logAndNotify (ApiCall.postMessage cmd.channel_id helloErrorText none))
    failAt

/-- `pingCommand` run under failure: no try/catch at all. -/
def pingRun (cmd : SlashCommand) (ackTime : Nat) (failAt : Option Nat) : HandlerRun :=
  runHandler [] (pingCommand cmd ackTime) .uncaught failAt

/-- `helpCommand` run under failure: no try/catch at all. -/
def helpRun (cmd : SlashCommand) (failAt : Option Nat) : HandlerRun :=
  runHandler [] (helpCommand cmd) .uncaught failAt

/-- `messageEvent` run under failure: the whole body is inside the try block;
the catch only logs. -/
def messageRun (e : MessageEvent) (isIm : Bool) (failAt : Option Nat) : HandlerRun :=
  runHandler [] (messageEvent e isIm) .logOnly failAt

/-- `appMentionEvent` run under failure: the whole body is inside the try
block; the catch only logs. -/
def appMentionRun (m : AppMentionEvent) (failAt : Option Nat) : HandlerRun :=
  runHandler [] (appMentionEvent m) .logOnly failAt

/-- `createTaskShortcut` run under failure: `ack` precedes the try block; the
catch only logs. -/
def createTaskRun (b : InteractionBody) (failAt : Option Nat) : HandlerRun :=
  runHandler [ApiCall.ack] (createTaskTry b) .logOnly failAt

/-- `viewHelpAction` run under failure: `ack` precedes the try block; the
catch only logs — no user-facing notice is attempted. -/
def viewHelpRun (b : InteractionBody) (failAt : Option Nat) : HandlerRun :=
  runHandler [ApiCall.ack] (viewHelpTry b) .logOnly failAt

/-- `channelInfoAction` run under failure: `ack` precedes the try block; the
catch only logs — no user-facing notice is attempted. -/
def channelInfoRun (b : InteractionBody) (env : ChannelInfoEnv)
    (failAt : Option Nat) : HandlerRun :=
  runHandler [ApiCall.ack] (channelInfoTry b env) .logOnly failAt

/-- `memberJoinedChannelEvent` run under failure: the whole body is inside
the try block; the catch only logs. -/
def memberJoinedRun (e : MemberJoinedEvent) (env : MemberJoinedEnv)
    (failAt : Option Nat) : HandlerRun :=
  runHandler [] (memberJoinedTry e env) .logOnly failAt

/-! ## Platform-side modal validation -/

/-- Modelled from the spec: the platform's (and SDK's) handling of a modal
open is not part of this repository — the repository only builds the
`views.open` call from `body.trigger_id`. Per the spec, an OpenModal attempt
lacking a non-empty interaction token fails with a validation condition
instead of being sent; every other call is accepted. -/
def validateAction (c : ApiCall) : Except String ApiCall :=
  match c with
  | ApiCall.viewsOpen t cb =>
      if t == "" then Except.error "validation: missing interaction token"
      else Except.ok (ApiCall.viewsOpen t cb)
  | c => Except.ok c

/-- Whether a call posted by the message or mention handler is threaded to the
timestamp `ts` (messages via `thread_ts`, reactions via `timestamp`). -/
def threadedQ (ts : String) : ApiCall → Bool
  | .postMessage _ _ th => th == some ts
  | .addReaction _ _ t => t == ts
  | _ => true

/-! ## Helper lemmas -/

theorem strDataAppend (a b : String) : (a ++ b).data = a.data ++ b.data := rfl

theorem startTestSelf (l r : List Char) : listStartTest l (l ++ r) = true := by
  induction l with
  | nil => rfl
  | cons a as ih => simp [listStartTest, ih]

theorem subTestNil (l : List Char) : listSubTest [] l = true := by
  cases l <;> simp [listSubTest, listStartTest]

theorem subTestOfAppend (pre pat suf : List Char) :
    listSubTest pat (pre ++ (pat ++ suf)) = true := by
  induction pre with
  | nil =>
    simp only [List.nil_append]
    cases pat with
    | nil => exact subTestNil suf
    | cons a as =>
      have h := startTestSelf (a :: as) suf
      simp [listSubTest, List.cons_append] at h ⊢
      exact Or.inl h
  | cons b bs ih =>
    simp [listSubTest, ih]

theorem startTestAppendRight (pat l r : List Char) (h : listStartTest pat l = true) :
    listStartTest pat (l ++ r) = true := by
  induction pat generalizing l with
  | nil => rfl
  | cons a as ih =>
    cases l with
    | nil => simp [listStartTest] at h
    | cons b bs =>
      simp [listStartTest] at h ⊢
      exact ⟨h.1, ih bs h.2⟩

theorem subTestAppendRight (pat l r : List Char) (h : listSubTest pat l = true) :
    listSubTest pat (l ++ r) = true := by
  induction l with
  | nil =>
    cases pat with
    | nil => exact subTestNil r
    | cons a as => simp [listSubTest, listStartTest] at h
  | cons b bs ih =>
    simp [listSubTest] at h ⊢
    rcases h with h | h
    · exact Or.inl (startTestAppendRight _ _ _ h)
    · exact Or.inr (ih h)

/-- Containment survives appending on the right. -/
theorem containsSubAppendRight (s t pat : String) (h : containsSub s pat = true) :
    containsSub (s ++ t) pat = true := by
  unfold containsSub at h ⊢
  rw [strDataAppend]
  exact subTestAppendRight _ _ _ h

/-- A string ending in `pat` contains `pat`. -/
theorem containsSubEnd (pre pat : String) : containsSub (pre ++ pat) pat = true := by
  unfold containsSub
  rw [strDataAppend]
  have h := subTestOfAppend pre.data pat.data []
  simpa using h

/-! ## Claims -/

/-- C1: a `message` event carrying a truthy `bot_id` (self/bot-originated) or
a truthy `subtype` marker is dropped by `messageEvent`: the handler performs
no API call at all, whatever the channel kind resolves to. -/
theorem c1_bot_or_subtype_dropped (e : MessageEvent) (isIm : Bool)
    (h : strTruthy e.bot_id = true ∨ strTruthy e.subtype = true) :
    messageEvent e isIm = [] := by
  unfold messageEvent
  rcases h with h | h <;> simp [h]

/-- Witness for C1: a concrete bot-originated message produces no calls. -/
theorem c1_witness :
    messageEvent ⟨some "urgent news", none, some "B042", "C7", "U5", "1700000000.000100"⟩ true = [] :=
  c1_bot_or_subtype_dropped ⟨some "urgent news", none, some "B042", "C7", "U5", "1700000000.000100"⟩ true
    (Or.inl (by decide))

/-- C9: a `message` event whose `text` field is absent or empty is dropped
before any API call — in particular before the `conversations.info` channel
lookup, which would otherwise be the first call in the trace. -/
theorem c9_empty_text_dropped (e : MessageEvent) (isIm : Bool)
    (h : strTruthy e.text = false) :
    messageEvent e isIm = [] := by
  unfold messageEvent
  simp [h]

/-- Witness for C9: a concrete text-less message produces no calls. -/
theorem c9_witness :
    messageEvent ⟨none, none, none, "C7", "U5", "1700000000.000100"⟩ false = [] :=
  c9_empty_text_dropped ⟨none, none, none, "C7", "U5", "1700000000.000100"⟩ false (by decide)

/-- C7: a direct-message `message` event that passes the drop guards and whose
text contains "hello" case-insensitively produces exactly one posted message,
addressed to the originating channel (and threaded to the event). -/
theorem c7_dm_hello_one_reply (e : MessageEvent) (t : String)
    (htext : e.text = some t) (ht : t ≠ "")
    (hsub : strTruthy e.subtype = false) (hbot : strTruthy e.bot_id = false)
    (hhello : containsSub (strToLower t) "hello" = true) :
    (messageEvent e true).filter isPost =
      [ApiCall.postMessage e.channel (dmHelloText e.user) (some e.ts)] := by
  have htt : strTruthy (some t) = true := by simp [strTruthy, ht]
  unfold messageEvent
  simp [htext, htt, hsub, hbot, hhello, isPost, List.filter]

/-- Witness for C7: a concrete DM containing "Hello". -/
theorem c7_witness :
    (messageEvent ⟨some "Hello bot", none, none, "D9", "U5", "1700000000.000100"⟩ true).filter isPost =
      [ApiCall.postMessage "D9" (dmHelloText "U5") (some "1700000000.000100")] :=
  c7_dm_hello_one_reply ⟨some "Hello bot", none, none, "D9", "U5", "1700000000.000100"⟩
    "Hello bot" rfl (by decide) (by decide) (by decide) (by decide)

/-- C2: a channel (non-DM) `message` event that passes the drop guards and
whose lower-cased text contains one of "urgent"/"emergency"/"important"/"asap"
produces exactly the two reactions "eyes" and "warning" (stated up to
permutation: the order between the two is irrelevant), and no reply is posted
alongside them — the reaction rule fires on the keyword alone, whatever else
the text contains. -/
theorem c2_urgent_keywords_two_reactions (e : MessageEvent) (t : String)
    (htext : e.text = some t) (ht : t ≠ "")
    (hsub : strTruthy e.subtype = false) (hbot : strTruthy e.bot_id = false)
    (hk : urgentKeywords.any (fun k => containsSub (strToLower t) k) = true) :
    ((messageEvent e false).filter isOutbound).Perm
      [ApiCall.addReaction e.channel "eyes" e.ts,
       ApiCall.addReaction e.channel "warning" e.ts]
    ∧ (messageEvent e false).filter isPost = [] := by
  have htt : strTruthy (some t) = true := by simp [strTruthy, ht]
  unfold messageEvent
  simp [htext, htt, hsub, hbot, hk, isOutbound, isPost, List.filter]

/-- Witness for C2: a concrete channel message containing both a reply keyword
("hello") and an urgency keyword still yields exactly the two reactions. -/
theorem c2_witness :
    ((messageEvent ⟨some "hello this is URGENT", none, none, "C7", "U5", "1700000000.000100"⟩ false).filter
        isOutbound).Perm
      [ApiCall.addReaction "C7" "eyes" "1700000000.000100",
       ApiCall.addReaction "C7" "warning" "1700000000.000100"]
    ∧ (messageEvent ⟨some "hello this is URGENT", none, none, "C7", "U5", "1700000000.000100"⟩ false).filter
        isPost = [] :=
  c2_urgent_keywords_two_reactions
    ⟨some "hello this is URGENT", none, none, "C7", "U5", "1700000000.000100"⟩
    "hello this is URGENT" rfl (by decide) (by decide) (by decide) (by decide)

/-- C10: every call produced by the message handler and the mention handler is
threaded to the triggering event: posted messages carry `thread_ts = event.ts`
and reactions carry `timestamp = event.ts`. -/
theorem c10_replies_threaded (e : MessageEvent) (isIm : Bool) (m : AppMentionEvent) :
    (∀ c ∈ messageEvent e isIm, threadedQ e.ts c = true)
    ∧ (∀ c ∈ appMentionEvent m, threadedQ m.ts c = true) := by
  constructor
  · intro c hc
    simp only [messageEvent] at hc
    split_ifs at hc <;> (try simp_all [threadedQ]) <;>
      rcases hc with rfl | rfl | rfl <;> simp [threadedQ]
  · intro c hc
    simp [appMentionEvent] at hc
    subst hc
    simp [threadedQ]

/-- Witness for C10: the concrete DM reply is threaded to the event's
timestamp. -/
theorem c10_witness :
    threadedQ "111.222" (ApiCall.postMessage "D1" (dmHelloText "U9") (some "111.222")) = true :=
  (c10_replies_threaded ⟨some "hello", none, none, "D1", "U9", "111.222"⟩ true
      ⟨"x", "U9", "C1", "1.2"⟩).1
    (ApiCall.postMessage "D1" (dmHelloText "U9") (some "111.222")) (by decide)

/-- C6: reply rules are an ordered first-match-wins chain of case-insensitive
substring predicates: a mention produces exactly one reply and the message
handler produces at most one reply; a mention whose text contains "help" gets
the help reply even if it also contains "status", and the help reply differs
from the status reply for every user. -/
theorem c6_first_match_wins (m : AppMentionEvent) (e : MessageEvent) (isIm : Bool)
    (hHelp : containsSub (strToLower m.text) "help" = true) :
    ((appMentionEvent m).filter isPost).length = 1
    ∧ ((messageEvent e isIm).filter isPost).length ≤ 1
    ∧ (appMentionEvent m).filter isPost =
        [ApiCall.postMessage m.channel (mentionHelpResponse m.user) (some m.ts)]
    ∧ mentionHelpResponse m.user ≠ mentionStatusResponse m.user := by
  refine ⟨?_, ?_, ?_, ?_⟩
  · simp [appMentionEvent, isPost, List.filter]
  · simp only [messageEvent]
    split_ifs <;> simp [isPost, List.filter]
  · simp [appMentionEvent, mentionResponse, hHelp, isPost, List.filter]
  · intro h
    have h2 := congrArg String.data h
    simp only [mentionHelpResponse, mentionStatusResponse, strDataAppend] at h2
    simp [String.data] at h2

/-- Witness for C6: a concrete mention containing both "help" and "status"
gets exactly the help reply. -/
theorem c6_witness :
    ((appMentionEvent ⟨"please help with status", "U3", "C2", "5.5"⟩).filter isPost).length = 1
    ∧ ((messageEvent ⟨some "hi", none, none, "D1", "U3", "6.6"⟩ true).filter isPost).length ≤ 1
    ∧ (appMentionEvent ⟨"please help with status", "U3", "C2", "5.5"⟩).filter isPost =
        [ApiCall.postMessage "C2" (mentionHelpResponse "U3") (some "5.5")]
    ∧ mentionHelpResponse "U3" ≠ mentionStatusResponse "U3" :=
  c6_first_match_wins ⟨"please help with status", "U3", "C2", "5.5"⟩
    ⟨some "hi", none, none, "D1", "U3", "6.6"⟩ true (by decide)

/-- C8: a mention whose text contains "status" (and not the earlier keyword
"help") by user "U2" produces exactly one reply, whose text contains "online"
and mentions "U2". -/
theorem c8_status_mention_reply (m : AppMentionEvent)
    (hu : m.user = "U2")
    (hnh : containsSub (strToLower m.text) "help" = false)
    (hs : containsSub (strToLower m.text) "status" = true) :
    (appMentionEvent m).filter isPost =
      [ApiCall.postMessage m.channel (mentionStatusResponse "U2") (some m.ts)]
    ∧ containsSub (mentionStatusResponse "U2") "online" = true
    ∧ containsSub (mentionStatusResponse "U2") "<@U2>" = true := by
  refine ⟨?_, by decide, by decide⟩
  simp [appMentionEvent, mentionResponse, hnh, hs, hu, isPost, List.filter]

/-- Witness for C8: the scenario `Mention{text:"@bot status", user:"U2"}`. -/
theorem c8_witness :
    (appMentionEvent ⟨"@bot status", "U2", "C1", "42.1"⟩).filter isPost =
      [ApiCall.postMessage "C1" (mentionStatusResponse "U2") (some "42.1")]
    ∧ containsSub (mentionStatusResponse "U2") "online" = true
    ∧ containsSub (mentionStatusResponse "U2") "<@U2>" = true :=
  c8_status_mention_reply ⟨"@bot status", "U2", "C1", "42.1"⟩ rfl (by decide) (by decide)

/-- C3: the shortcut and button handlers build their one OpenModal call from
the event's interaction token (`body.trigger_id`) and nothing else; under the
spec-modelled platform validation `validateAction`, an event lacking a
non-empty token makes every OpenModal attempt fail with the validation
condition, and an OpenModal is accepted only when the token is non-empty. -/
theorem c3_modal_requires_token (b : InteractionBody) :
    (b.trigger_id = "" →
      ∀ c ∈ createTaskShortcut b ++ viewHelpAction b, isModalOpen c = true →
        validateAction c = Except.error "validation: missing interaction token")
    ∧ (∀ c ∈ createTaskShortcut b ++ viewHelpAction b, isModalOpen c = true →
        b.trigger_id ≠ "" → validateAction c = Except.ok c) := by
  constructor
  · intro hb c hc hm
    simp [createTaskShortcut, createTaskTry, viewHelpAction, viewHelpTry,
      List.mem_append, List.mem_cons] at hc
    rcases hc with hc | hc | hc | hc <;> subst hc <;>
      simp_all [isModalOpen, validateAction]
  · intro c hc hm hb
    simp [createTaskShortcut, createTaskTry, viewHelpAction, viewHelpTry,
      List.mem_append, List.mem_cons] at hc
    rcases hc with hc | hc | hc | hc <;> subst hc <;>
      simp_all [isModalOpen, validateAction]

/-- Witness for C3: a token-less shortcut's modal open fails validation. -/
theorem c3_witness :
    validateAction (ApiCall.viewsOpen "" (some "task_modal")) =
      Except.error "validation: missing interaction token" :=
  (c3_modal_requires_token ⟨"", "U1"⟩).1 rfl (ApiCall.viewsOpen "" (some "task_modal"))
    (by decide) rfl

/-- C5 counterexample: for `SlashCommand{text:"", user:"U1"}` with the
`users.info` lookup resolving the display name "Alice Kim", `helloCommand`
posts exactly one message — but its content does not contain the literal
substring "U1": the handler interpolates the resolved display name, never the
user id. -/
theorem c5_counterexample :
    (helloCommand ⟨"U1", "C1", ""⟩ ⟨some "Alice Kim", none⟩).filter isPost =
      [ApiCall.postMessage "C1" (helloBlocksText "Alice Kim" ⟨"U1", "C1", ""⟩) none]
    ∧ containsSub (helloBlocksText "Alice Kim" ⟨"U1", "C1", ""⟩) "U1" = false := by
  decide

/-- C5 amended: for the `/hello` handler invoked with empty command text by
user "U1", the policy returns exactly one PostMessage, addressed to the
originating channel, whose content contains the resolved user display name
(`real_name`, else `name`, else "there") — not necessarily the literal "U1" —
and the executor performs exactly one message-posting call. -/
theorem c5_amended_hello_reply (cmd : SlashCommand) (uinfo : UserInfoResult)
    (hu : cmd.user_id = "U1") (ht : cmd.text = "") :
    (helloCommand cmd uinfo).filter isPost =
      [ApiCall.postMessage cmd.channel_id
        (helloBlocksText (resolvedUserName uinfo) cmd) none]
    ∧ containsSub (helloBlocksText (resolvedUserName uinfo) cmd)
        (resolvedUserName uinfo) = true := by
  constructor
  · simp [helloCommand, isPost, List.filter]
  · simp only [helloBlocksText]
    iterate 7 apply containsSubAppendRight
    exact containsSubEnd "Hello *" (resolvedUserName uinfo)

/-- Witness for the amended C5: user "U1" resolving to the name "jaykay". -/
theorem c5_witness :
    (helloCommand ⟨"U1", "C9", ""⟩ ⟨none, some "jaykay"⟩).filter isPost =
      [ApiCall.postMessage "C9"
        (helloBlocksText (resolvedUserName ⟨none, some "jaykay"⟩) ⟨"U1", "C9", ""⟩) none]
    ∧ containsSub (helloBlocksText (resolvedUserName ⟨none, some "jaykay"⟩) ⟨"U1", "C9", ""⟩)
        (resolvedUserName ⟨none, some "jaykay"⟩) = true :=
  c5_amended_hello_reply ⟨"U1", "C9", ""⟩ ⟨none, some "jaykay"⟩ rfl rfl

/-! Field lemmas for `runHandler` under a failure inside the try block. -/

theorem runHandler_logOnly_fields (pre body : List ApiCall) (i : Nat)
    (h1 : pre.length ≤ i) (h2 : i < pre.length + body.length) :
    (runHandler pre body .logOnly (some i)).logged = 1
    ∧ (runHandler pre body .logOnly (some i)).notices = 0
    ∧ (runHandler pre body .logOnly (some i)).thrown = false := by
  simp only [runHandler]
  rw [if_neg (Nat.not_lt.mpr h1), if_pos h2]
  exact ⟨rfl, rfl, rfl⟩

theorem runHandler_logAndNotify_fields (pre body : List ApiCall) (n : ApiCall) (i : Nat)
    (h1 : pre.length ≤ i) (h2 : i < pre.length + body.length) :
    (runHandler pre body (.logAndNotify n) (some i)).logged = 1
    ∧ (runHandler pre body (.logAndNotify n) (some i)).notices = 1
    ∧ (runHandler pre body (.logAndNotify n) (some i)).thrown = false := by
  simp only [runHandler]
  rw [if_neg (Nat.not_lt.mpr h1), if_pos h2]
  exact ⟨rfl, rfl, rfl⟩

theorem runHandler_uncaught_fields (body : List ApiCall) (i : Nat)
    (h2 : i < body.length) :
    (runHandler [] body .uncaught (some i)).thrown = true
    ∧ (runHandler [] body .uncaught (some i)).logged = 0
    ∧ (runHandler [] body .uncaught (some i)).notices = 0 := by
  simp only [runHandler]
  rw [if_neg (by simp), if_pos (by simpa using h2)]
  exact ⟨rfl, rfl, rfl⟩

/-- C4 counterexample: the `view_help` button handler — a user-initiated
variant in the claim's own list — fails at its `views.open` call: the failure
is logged and swallowed, but `notices = 0`: no user-facing error notice is
attempted, contradicting "exactly one best-effort user-facing error notice is
attempted" for button variants. -/
theorem c4_counterexample :
    viewHelpRun ⟨"T123", "U1"⟩ (some 1) =
      ⟨[ApiCall.ack, ApiCall.viewsOpen "T123" none], 1, 0, false⟩ := by
  decide

/-- C4 amended: when a platform call fails inside a handler's try block the
condition is logged once and swallowed, and only the `/hello` command handler
additionally attempts one user-facing error notice; the button, shortcut and
passive event handlers attempt none; the `/ping` and `/help` command handlers
have no try/catch at all, so a failing call there escapes the handler
uncaught (the framework, not the handler, then owns the failure). -/
theorem c4_amended_error_handling
    (cmd : SlashCommand) (uinfo : UserInfoResult) (ackTime : Nat)
    (b : InteractionBody) (env : ChannelInfoEnv)
    (e : MessageEvent) (isIm : Bool) (m : AppMentionEvent)
    (mj : MemberJoinedEvent) (mjEnv : MemberJoinedEnv) :
    (∀ i, 1 ≤ i → i < 3 →
      (helloRun cmd uinfo (some i)).logged = 1
      ∧ (helloRun cmd uinfo (some i)).notices = 1
      ∧ (helloRun cmd uinfo (some i)).thrown = false)
    ∧ (∀ i, i < (messageEvent e isIm).length →
      (messageRun e isIm (some i)).logged = 1
      ∧ (messageRun e isIm (some i)).notices = 0
      ∧ (messageRun e isIm (some i)).thrown = false)
    ∧ (∀ i, i < 1 →
      (appMentionRun m (some i)).logged = 1
      ∧ (appMentionRun m (some i)).notices = 0
      ∧ (appMentionRun m (some i)).thrown = false)
    ∧ (∀ i, i < 2 →
      (pingRun cmd ackTime (some i)).thrown = true
      ∧ (pingRun cmd ackTime (some i)).logged = 0
      ∧ (pingRun cmd ackTime (some i)).notices = 0)
    ∧ (∀ i, i < 2 →
      (helpRun cmd (some i)).thrown = true
      ∧ (helpRun cmd (some i)).logged = 0
      ∧ (helpRun cmd (some i)).notices = 0)
    ∧ (∀ i, 1 ≤ i → i < 2 →
      (createTaskRun b (some i)).logged = 1
      ∧ (createTaskRun b (some i)).notices = 0
      ∧ (createTaskRun b (some i)).thrown = false)
    ∧ (∀ i, 1 ≤ i → i < 2 →
      (viewHelpRun b (some i)).logged = 1
      ∧ (viewHelpRun b (some i)).notices = 0
      ∧ (viewHelpRun b (some i)).thrown = false)
    ∧ (∀ i, 1 ≤ i → i < 4 →
      (channelInfoRun b env (some i)).logged = 1
      ∧ (channelInfoRun b env (some i)).notices = 0
      ∧ (channelInfoRun b env (some i)).thrown = false)
    ∧ (∀ i, i < 3 →
      (memberJoinedRun mj mjEnv (some i)).logged = 1
      ∧ (memberJoinedRun mj mjEnv (some i)).notices = 0
      ∧ (memberJoinedRun mj mjEnv (some i)).thrown = false) := by
  refine ⟨?_, ?_, ?_, ?_, ?_, ?_, ?_, ?_, ?_⟩
  · intro i h1 h2
    exact runHandler_logAndNotify_fields [ApiCall.ack] _ _ i
      (by simpa using h1) (by simp; omega)
  · intro i h2
    exact runHandler_logOnly_fields [] _ i (Nat.zero_le i) (by simpa using h2)
  · intro i h2
    exact runHandler_logOnly_fields [] _ i (Nat.zero_le i)
      (by simp [appMentionEvent]; omega)
  · intro i h2
    exact runHandler_uncaught_fields _ i (by simp [pingCommand]; omega)
  · intro i h2
    exact runHandler_uncaught_fields _ i (by simp [helpCommand]; omega)
  · intro i h1 h2
    exact runHandler_logOnly_fields [ApiCall.ack] _ i
      (by simpa using h1) (by simp [createTaskTry]; omega)
  · intro i h1 h2
    exact runHandler_logOnly_fields [ApiCall.ack] _ i
      (by simpa using h1) (by simp [viewHelpTry]; omega)
  · intro i h1 h2
    exact runHandler_logOnly_fields [ApiCall.ack] _ i
      (by simpa using h1) (by simp [channelInfoTry]; omega)
  · intro i h2
    exact runHandler_logOnly_fields [] _ i (Nat.zero_le i)
      (by simp [memberJoinedTry]; omega)

/-- Witness for the amended C4: one concrete failing call per handler. -/
theorem c4_witness :
    (helloRun ⟨"U1", "C1", ""⟩ ⟨some "Alice", none⟩ (some 1)).notices = 1
    ∧ (messageRun ⟨some "hello", none, none, "D1", "U9", "1.2"⟩ true (some 1)).notices = 0
    ∧ (appMentionRun ⟨"hi", "U2", "C3", "2.2"⟩ (some 0)).logged = 1
    ∧ (pingRun ⟨"U1", "C1", ""⟩ 7 (some 1)).thrown = true
    ∧ (helpRun ⟨"U1", "C1", ""⟩ (some 1)).thrown = true
    ∧ (createTaskRun ⟨"T1", "U1"⟩ (some 1)).notices = 0
    ∧ (viewHelpRun ⟨"T1", "U1"⟩ (some 1)).logged = 1
    ∧ (channelInfoRun ⟨"T1", "U1"⟩ ⟨"C1", some "general", 3, some 1600000000, "9/13/2020", none, none⟩
        (some 2)).notices = 0
    ∧ (memberJoinedRun ⟨"U4", "C5"⟩ ⟨⟨none, none⟩, some "general"⟩ (some 2)).logged = 1 := by
  have T := c4_amended_error_handling ⟨"U1", "C1", ""⟩ ⟨some "Alice", none⟩ 7
    ⟨"T1", "U1"⟩ ⟨"C1", some "general", 3, some 1600000000, "9/13/2020", none, none⟩
    ⟨some "hello", none, none, "D1", "U9", "1.2"⟩ true ⟨"hi", "U2", "C3", "2.2"⟩
    ⟨"U4", "C5"⟩ ⟨⟨none, none⟩, some "general"⟩
  exact ⟨(T.1 1 (by decide) (by decide)).2.1,
    (T.2.1 1 (by decide)).2.1,
    (T.2.2.1 0 (by decide)).1,
    (T.2.2.2.1 1 (by decide)).1,
    (T.2.2.2.2.1 1 (by decide)).1,
    (T.2.2.2.2.2.1 1 (by decide) (by decide)).2.1,
    (T.2.2.2.2.2.2.1 1 (by decide) (by decide)).1,
    (T.2.2.2.2.2.2.2.1 2 (by decide) (by decide)).2.1,
    (T.2.2.2.2.2.2.2.2 2 (by decide)).1⟩

end SolvookBot
